import Mathlib

/-!
Shallow embedding of the pr-line-counter webhook service (src/index.js).

Conventions of the embedding:
- Raw request bodies, signature headers and HMAC digests are byte lists
  (`List Nat`); `Buffer.from` of a missing header (`signature ||` the empty
  string) becomes `Option.getD` with the empty list.
- Node `crypto.createHmac(sha256, WEBHOOK_SECRET)....digest(hex)` is an
  abstract function `hmacSha256Hex : List Nat → List Nat` from the raw body to
  the ASCII bytes of the hex digest (the secret is baked into the function,
  exactly as the env var is baked into the closure in the source).
- `crypto.timingSafeEqual` throws on buffers of unequal length and otherwise
  compares contents; its embedding returns `Except`.
- External collaborators (Octokit calls, the OpenAI completion call,
  `JSON.parse` of the model output) are an environment `Env` of oracles
  returning `Except`: one result per call site, sufficient because the source
  performs each call with fixed arguments per pipeline run.
- Side effects are reified as an `Effect` trace: diff fetch, per-file review
  start (the `console.log` before the service call), inline comment posts,
  swallowed-and-logged inline failures, and the final summary comment.
- JavaScript truthiness of `file.patch` (`undefined` and the empty string are
  falsy) is `jsTruthy`.
-/

deriving instance DecidableEq for Except

/-- A changed file as returned by `pulls.listFiles`: `{filename, status,
additions, deletions, patch?}`. Counts are `Option` because the summarizer
guards them with `|| 0` in the source. -/
structure ChangedFile where
  filename : String
  status : String
  additions : Option Nat
  deletions : Option Nat
  patch : Option String
deriving DecidableEq, Repr

/-- The summary statistics produced by `countLines`. -/
structure SummaryStats where
  additions : Nat
  deletions : Nat
  filesChanged : Nat
  netChange : Int
deriving DecidableEq, Repr

/-- One structured review finding `{line, message, severity}` parsed from the
model output. -/
structure ReviewComment where
  line : Nat
  message : String
  severity : String
deriving DecidableEq, Repr

/-- The parsed review payload: `comments` is `none` when the parsed JSON object
has no `comments` array at all. -/
structure AIReview where
  comments : Option (List ReviewComment)
deriving DecidableEq, Repr

/-- JavaScript truthiness of `file.patch`: `undefined` and the empty string are
falsy. -/
def jsTruthy : Option String → Bool
  | none => false
  | some s => !(s == "")

/-- `isCodeFile` from src/index.js lines 31-34: a file is reviewable unless its
lower-cased name ends with one of the image extensions. The JS
`filename.toLowerCase().endsWith(ext)` is embedded on char lists. -/
def isCodeFile (filename : String) : Bool :=
  let imageExtensions := [".png", ".jpg", ".jpeg", ".gif", ".svg", ".ico", ".bmp", ".webp"]
  !(imageExtensions.any (fun ext => ext.toList.isSuffixOf (filename.toList.map Char.toLower)))

/-- `crypto.timingSafeEqual(a, b)`: throws when the buffer lengths differ,
otherwise reports whether the contents are equal. -/
def timingSafeEqual (a b : List Nat) : Except String Bool :=
  if a.length = b.length then Except.ok (a == b)
  else Except.error ("ERR_CRYPTO_TIMING_SAFE_EQUAL_LENGTH: Input buffers must have the same byte length")

/-- The ASCII bytes of the literal string prepended to the hex digest in
`Buffer.from(`sha256=...`)`. -/
def sha256Tag : List Nat := "sha256=".toList.map Char.toNat

/-- `verifySignature(payload, signature)` from src/index.js lines 49-59:
compute the hex HMAC digest of the payload, prepend the tag, and compare with
`crypto.timingSafeEqual` against `Buffer.from(signature || empty)`. -/
def verifySignature (hmacSha256Hex : List Nat → List Nat) (payload : List Nat)
    (signature : Option (List Nat)) : Except String Bool :=
  let expectedSignature := hmacSha256Hex payload
  timingSafeEqual (sha256Tag ++ expectedSignature) (signature.getD [])

/-- The loop body of `files.forEach` in `countLines` (src/index.js lines
220-226), with the three mutable counters as an accumulator triple
(additions, deletions, filesChanged). -/
def countLinesStep (acc : Nat × Nat × Nat) (file : ChangedFile) : Nat × Nat × Nat :=
  if file.status != "removed" then
    (acc.1 + file.additions.getD 0, acc.2.1 + file.deletions.getD 0, acc.2.2 + 1)
  else acc

/-- `countLines(files)` from src/index.js lines 215-234. -/
def countLines (files : List ChangedFile) : SummaryStats :=
  let acc := files.foldl countLinesStep (0, 0, 0)
  { additions := acc.1
    deletions := acc.2.1
    filesChanged := acc.2.2
    netChange := (acc.1 : Int) - (acc.2.1 : Int) }

/-- The `emoji` variable of `formatComment` (src/index.js lines 239-241). -/
def commentEmoji (netChange : Int) : String :=
  if netChange > 100 then "🚀"
  else if netChange < 0 then "🔥"
  else "📊"

/-- The advisory last line of `formatComment` (src/index.js line 250). -/
def largePRAdvice (netChange : Int) : String :=
  if netChange > 200 then "⚠️ This is a large PR. Consider breaking it into smaller changes."
  else "✅ Good PR size!"

/-- The middle of the summary template between the tier emoji and the advisory
line. -/
def commentBody (stats : SummaryStats) : String :=
  " **PR Line Count Summary**\n\n📈 **Added:** " ++ toString stats.additions ++
  " lines\n📉 **Deleted:** " ++ toString stats.deletions ++
  " lines\n📁 **Files changed:** " ++ toString stats.filesChanged ++
  "\n📏 **Net change:** " ++ (if stats.netChange > 0 then "+" else "") ++
  toString stats.netChange ++ " lines\n\n"

/-- `formatComment(stats)` from src/index.js lines 236-251. -/
def formatComment (stats : SummaryStats) : String :=
  commentEmoji stats.netChange ++ commentBody stats ++ largePRAdvice stats.netChange

/-- Reified side effects of one pipeline run. -/
inductive Effect where
  | fetchedDiff : Effect
  | startedReview : String → Effect
  | postedInline : String → Nat → Effect
  | loggedInlineError : String → Effect
  | postedSummary : String → Effect
deriving DecidableEq, Repr

/-- The external collaborators of one pipeline run, as result oracles.
`hmacSha256Hex` is the HMAC of the webhook secret; `getInstallationToken` the
token exchange; `listFiles` the diff fetch; `openaiCreate` the completion call
keyed by the `{filename, patch}` it is prompted with; `jsonParse` the
`JSON.parse` of the model text; `pullsGet` the PR head-sha fetch;
`createReviewComment` the inline post keyed by (sha, path, comment);
`createComment` the summary post keyed by its body. -/
structure Env where
  hmacSha256Hex : List Nat → List Nat
  getInstallationToken : Except String String
  listFiles : Except String (List ChangedFile)
  openaiCreate : String → Option String → Except String String
  jsonParse : String → Except String AIReview
  pullsGet : Except String String
  createReviewComment : String → String → ReviewComment → Except String Unit
  createComment : String → Except String Unit

/-- `getAIReview(filename, patch)` from src/index.js lines 106-145: call the
completion service and `JSON.parse` the content; both failure modes land in
the catch block, which returns `{comments: []}`. -/
def getAIReview (serviceResult : Except String String)
    (jsonParse : String → Except String AIReview) : AIReview :=
  match serviceResult with
  | Except.error _ => { comments := some [] }
  | Except.ok content =>
    match jsonParse content with
    | Except.error _ => { comments := some [] }
    | Except.ok review => review

/-- `postInlineComment(octokit, repository, prNumber, file, comment)` from
src/index.js lines 147-170: fetch the PR head sha, post the review comment;
any failure is caught and logged, never rethrown. -/
def postInlineComment (env : Env) (file : ChangedFile) (comment : ReviewComment) :
    List Effect :=
  match env.pullsGet with
  | Except.error e => [Effect.loggedInlineError e]
  | Except.ok sha =>
    match env.createReviewComment sha file.filename comment with
    | Except.error e => [Effect.loggedInlineError e]
    | Except.ok _ => [Effect.postedInline file.filename comment.line]

/-- `reviewFileWithAI(file, octokit, repository, prNumber)` from src/index.js
lines 89-104: log the file, get the review, and post each comment when the
`comments` array is present and non-empty. Every callee already swallows its
own failures, so the surrounding try/catch has nothing left to catch. -/
def reviewFileWithAI (env : Env) (file : ChangedFile) : List Effect :=
  Effect.startedReview file.filename ::
    (let aiReview := getAIReview (env.openaiCreate file.filename file.patch) env.jsonParse
     match aiReview.comments with
     | some cs =>
       if cs.length > 0 then cs.flatMap (fun comment => postInlineComment env file comment)
       else []
     | none => [])

/-- The body of the per-file loop in `handlePullRequest` (src/index.js lines
189-196): `continue` on removed status or falsy patch, then review only
non-image files. -/
def reviewStep (env : Env) (file : ChangedFile) : List Effect :=
  if file.status == "removed" || !(jsTruthy file.patch) then []
  else if isCodeFile file.filename then reviewFileWithAI env file
  else []

/-- `handlePullRequest(payload)` from src/index.js lines 173-213: mint the
installation token, fetch the changed files, run the review loop, then count
lines, format and post the summary comment. A thrown step aborts the rest;
the trace records the side effects that happened before the throw. -/
def handlePullRequest (env : Env) : List Effect × Option String :=
  match env.getInstallationToken with
  | Except.error e => ([], some e)
  | Except.ok _token =>
    match env.listFiles with
    | Except.error e => ([Effect.fetchedDiff], some e)
    | Except.ok files =>
      let reviewEffects := files.flatMap (reviewStep env)
      let stats := countLines files
      let comment := formatComment stats
      match env.createComment comment with
      | Except.error e => (Effect.fetchedDiff :: reviewEffects, some e)
      | Except.ok _ => (Effect.fetchedDiff :: (reviewEffects ++ [Effect.postedSummary comment]), none)

/-- The parsed webhook payload fields the dispatcher looks at: `action`,
presence of `pull_request` (carrying its number), and the installation id. -/
structure Payload where
  action : String
  pull_request : Option Nat
  installationId : Nat
deriving DecidableEq, Repr

/-- The `/webhook` POST handler (src/index.js lines 62-87): verify the
signature (its throw escapes the handler unhandled, `Except.error`); reply 401
on a bad signature; reply 200 and do nothing for events without a pull request
or with an action other than opened/synchronize; otherwise run the pipeline,
answering 200 on success and 500 when it threw. -/
def webhookHandler (env : Env) (body : List Nat) (signature : Option (List Nat))
    (payload : Payload) : Except String (Nat × List Effect) :=
  match verifySignature env.hmacSha256Hex body signature with
  | Except.error e => Except.error e
  | Except.ok false => Except.ok (401, [])
  | Except.ok true =>
    if payload.pull_request.isNone || (payload.action != "opened" && payload.action != "synchronize") then
      Except.ok (200, [])
    else
      match handlePullRequest env with
      | (acts, some _) => Except.ok (500, acts)
      | (acts, none) => Except.ok (200, acts)

/-! ### Characterization of the `countLines` fold -/

/-- Total additions the `countLines` loop accumulates over a list. -/
def addSum : List ChangedFile → Nat
  | [] => 0
  | f :: fs => (if f.status != "removed" then f.additions.getD 0 else 0) + addSum fs

/-- Total deletions the `countLines` loop accumulates over a list. -/
def delSum : List ChangedFile → Nat
  | [] => 0
  | f :: fs => (if f.status != "removed" then f.deletions.getD 0 else 0) + delSum fs

/-- Non-removed files the `countLines` loop counts over a list. -/
def keptCount : List ChangedFile → Nat
  | [] => 0
  | f :: fs => (if f.status != "removed" then 1 else 0) + keptCount fs

lemma foldl_countLinesStep (files : List ChangedFile) (a d c : Nat) :
    files.foldl countLinesStep (a, d, c) =
      (a + addSum files, d + delSum files, c + keptCount files) := by
  induction files generalizing a d c with
  | nil => simp [addSum, delSum, keptCount]
  | cons f fs ih =>
    cases hb : (f.status != "removed") with
    | true =>
      simp only [List.foldl_cons, countLinesStep, hb, if_true, addSum, delSum, keptCount, ih,
        Prod.mk.injEq]
      omega
    | false =>
      simp only [List.foldl_cons, countLinesStep, hb, Bool.false_eq_true, if_false, addSum,
        delSum, keptCount, ih, Prod.mk.injEq]
      omega

lemma countLines_eq (files : List ChangedFile) :
    countLines files =
      { additions := addSum files, deletions := delSum files, filesChanged := keptCount files,
        netChange := (addSum files : Int) - (delSum files : Int) } := by
  simp only [countLines, foldl_countLinesStep files 0 0 0, Nat.zero_add]

lemma addSum_append (xs ys : List ChangedFile) :
    addSum (xs ++ ys) = addSum xs + addSum ys := by
  induction xs with
  | nil => simp [addSum]
  | cons f fs ih => rw [List.cons_append, addSum, addSum, ih]; omega

lemma delSum_append (xs ys : List ChangedFile) :
    delSum (xs ++ ys) = delSum xs + delSum ys := by
  induction xs with
  | nil => simp [delSum]
  | cons f fs ih => rw [List.cons_append, delSum, delSum, ih]; omega

lemma keptCount_append (xs ys : List ChangedFile) :
    keptCount (xs ++ ys) = keptCount xs + keptCount ys := by
  induction xs with
  | nil => simp [keptCount]
  | cons f fs ih => rw [List.cons_append, keptCount, keptCount, ih]; omega

lemma keptCount_eq_filter_length (files : List ChangedFile) :
    keptCount files = (files.filter (fun g => g.status != "removed")).length := by
  induction files with
  | nil => simp [keptCount]
  | cons f fs ih =>
    cases hb : (f.status != "removed") <;>
      simp [keptCount, List.filter_cons, hb, ih] <;> omega

/-- C3: for every list of changed files, `countLines` reports
`netChange = additions - deletions`, a removed file contributes nothing to any
total, `filesChanged` counts exactly the non-removed files, and the empty list
yields all zeroes; the function is a pure total reduction. -/
theorem countLines_invariants (files xs ys : List ChangedFile) (f : ChangedFile)
    (hrem : f.status = "removed") :
    (countLines files).netChange =
      ((countLines files).additions : Int) - ((countLines files).deletions : Int) ∧
    countLines (xs ++ f :: ys) = countLines (xs ++ ys) ∧
    (countLines files).filesChanged =
      (files.filter (fun g => g.status != "removed")).length ∧
    countLines [] = { additions := 0, deletions := 0, filesChanged := 0, netChange := 0 } := by
  have hb : (f.status != "removed") = false := by simp [hrem]
  refine ⟨?_, ?_, ?_, ?_⟩
  · simp [countLines_eq]
  · simp [countLines_eq, addSum_append, delSum_append, keptCount_append, addSum, delSum,
      keptCount, hb]
  · simp [countLines_eq, keptCount_eq_filter_length]
  · rfl

/-- Closed instance of `countLines_invariants` at concrete inputs. -/
theorem countLines_invariants_witness :
    (ChangedFile.mk ("old.js") ("removed") (some 3) (some 4) none).status = "removed" ∧
    ((countLines [ChangedFile.mk ("a.js") ("modified") (some 10) (some 2) none]).netChange =
      ((countLines [ChangedFile.mk ("a.js") ("modified") (some 10) (some 2) none]).additions : Int) -
        ((countLines [ChangedFile.mk ("a.js") ("modified") (some 10) (some 2) none]).deletions : Int) ∧
     countLines ([] ++ ChangedFile.mk ("old.js") ("removed") (some 3) (some 4) none ::
         [ChangedFile.mk ("a.js") ("modified") (some 10) (some 2) none]) =
       countLines ([] ++ [ChangedFile.mk ("a.js") ("modified") (some 10) (some 2) none]) ∧
     (countLines [ChangedFile.mk ("a.js") ("modified") (some 10) (some 2) none]).filesChanged =
       (List.filter (fun g => g.status != "removed")
         [ChangedFile.mk ("a.js") ("modified") (some 10) (some 2) none]).length ∧
     countLines [] = { additions := 0, deletions := 0, filesChanged := 0, netChange := 0 }) :=
  ⟨rfl,
   countLines_invariants [ChangedFile.mk ("a.js") ("modified") (some 10) (some 2) none] []
     [ChangedFile.mk ("a.js") ("modified") (some 10) (some 2) none]
     (ChangedFile.mk ("old.js") ("removed") (some 3) (some 4) none) rfl⟩

/-- C9: `countLines` is total when a non-removed file carries no
additions/deletions counts: the missing count contributes zero, so the file is
interchangeable with one carrying explicit zero counts, and on its own it
yields well-defined zero totals while still being counted as changed. -/
theorem countLines_missing_counts (xs ys : List ChangedFile) (f : ChangedFile)
    (hst : f.status ≠ "removed") (ha : f.additions = none) (hd : f.deletions = none) :
    countLines (xs ++ f :: ys) =
      countLines (xs ++ { f with additions := some 0, deletions := some 0 } :: ys) ∧
    (countLines [f]).additions = 0 ∧ (countLines [f]).deletions = 0 ∧
    (countLines [f]).filesChanged = 1 ∧ (countLines [f]).netChange = 0 := by
  have hb : (f.status != "removed") = true := by simp [hst]
  refine ⟨?_, ?_, ?_, ?_, ?_⟩ <;>
    simp [countLines_eq, addSum_append, delSum_append, keptCount_append, addSum, delSum,
      keptCount, hb, ha, hd]

/-- Closed instance of `countLines_missing_counts` at concrete inputs. -/
theorem countLines_missing_counts_witness :
    (ChangedFile.mk ("x.js") ("modified") none none (some "@@")).status ≠ "removed" ∧
    (ChangedFile.mk ("x.js") ("modified") none none (some "@@")).additions = none ∧
    (ChangedFile.mk ("x.js") ("modified") none none (some "@@")).deletions = none ∧
    (countLines ([] ++ ChangedFile.mk ("x.js") ("modified") none none (some "@@") :: []) =
      countLines ([] ++ { ChangedFile.mk ("x.js") ("modified") none none (some "@@") with
        additions := some 0, deletions := some 0 } :: []) ∧
     (countLines [ChangedFile.mk ("x.js") ("modified") none none (some "@@")]).additions = 0 ∧
     (countLines [ChangedFile.mk ("x.js") ("modified") none none (some "@@")]).deletions = 0 ∧
     (countLines [ChangedFile.mk ("x.js") ("modified") none none (some "@@")]).filesChanged = 1 ∧
     (countLines [ChangedFile.mk ("x.js") ("modified") none none (some "@@")]).netChange = 0) :=
  ⟨by decide, rfl, rfl,
   countLines_missing_counts [] [] (ChangedFile.mk ("x.js") ("modified") none none (some "@@"))
     (by decide) rfl rfl⟩

/-- C8: at the tier boundaries the rendered summary leads with the neutral
marker at netChange 100, the rocket marker at 101, the shrinking marker at -1,
and ends with the default size acknowledgment at 200 but the large-PR warning
at 201, for every additions/deletions/filesChanged value. -/
theorem formatComment_tier_boundaries (a d c : Nat) :
    (∃ r, formatComment { additions := a, deletions := d, filesChanged := c, netChange := 100 } =
      "📊" ++ r) ∧
    (∃ r, formatComment { additions := a, deletions := d, filesChanged := c, netChange := 101 } =
      "🚀" ++ r) ∧
    (∃ r, formatComment { additions := a, deletions := d, filesChanged := c, netChange := -1 } =
      "🔥" ++ r) ∧
    (∃ p, formatComment { additions := a, deletions := d, filesChanged := c, netChange := 200 } =
      p ++ "✅ Good PR size!") ∧
    (∃ p, formatComment { additions := a, deletions := d, filesChanged := c, netChange := 201 } =
      p ++ "⚠️ This is a large PR. Consider breaking it into smaller changes.") := by
  have e100 : commentEmoji 100 = "📊" := by norm_num [commentEmoji]
  have e101 : commentEmoji 101 = "🚀" := by norm_num [commentEmoji]
  have eneg : commentEmoji (-1) = "🔥" := by norm_num [commentEmoji]
  have a200 : largePRAdvice 200 = "✅ Good PR size!" := by norm_num [largePRAdvice]
  have a201 : largePRAdvice 201 =
      "⚠️ This is a large PR. Consider breaking it into smaller changes." := by
    norm_num [largePRAdvice]
  refine ⟨⟨commentBody { additions := a, deletions := d, filesChanged := c, netChange := 100 } ++
            largePRAdvice 100, ?_⟩,
          ⟨commentBody { additions := a, deletions := d, filesChanged := c, netChange := 101 } ++
            largePRAdvice 101, ?_⟩,
          ⟨commentBody { additions := a, deletions := d, filesChanged := c, netChange := -1 } ++
            largePRAdvice (-1), ?_⟩,
          ⟨commentEmoji 200 ++
            commentBody { additions := a, deletions := d, filesChanged := c, netChange := 200 }, ?_⟩,
          ⟨commentEmoji 201 ++
            commentBody { additions := a, deletions := d, filesChanged := c, netChange := 201 }, ?_⟩⟩
  · rw [show formatComment { additions := a, deletions := d, filesChanged := c, netChange := 100 } =
        commentEmoji 100 ++
          commentBody { additions := a, deletions := d, filesChanged := c, netChange := 100 } ++
          largePRAdvice 100 from rfl, e100, String.append_assoc]
  · rw [show formatComment { additions := a, deletions := d, filesChanged := c, netChange := 101 } =
        commentEmoji 101 ++
          commentBody { additions := a, deletions := d, filesChanged := c, netChange := 101 } ++
          largePRAdvice 101 from rfl, e101, String.append_assoc]
  · rw [show formatComment { additions := a, deletions := d, filesChanged := c, netChange := -1 } =
        commentEmoji (-1) ++
          commentBody { additions := a, deletions := d, filesChanged := c, netChange := -1 } ++
          largePRAdvice (-1) from rfl, eneg, String.append_assoc]
  · rw [show formatComment { additions := a, deletions := d, filesChanged := c, netChange := 200 } =
        commentEmoji 200 ++
          commentBody { additions := a, deletions := d, filesChanged := c, netChange := 200 } ++
          largePRAdvice 200 from rfl, a200]
  · rw [show formatComment { additions := a, deletions := d, filesChanged := c, netChange := 201 } =
        commentEmoji 201 ++
          commentBody { additions := a, deletions := d, filesChanged := c, netChange := 201 } ++
          largePRAdvice 201 from rfl, a201]

/-! ### Signature verifier -/

/-- A concrete stand-in digest function used for closed instantiations: two
bytes, the first depending on the input. -/
def toyHmac (l : List Nat) : List Nat := [l.length % 256, 97]

/-- C1: verification succeeds exactly on the header `sha256=` ++ hex digest of
the body; a body mutation that changes the digest (HMAC-SHA256 is modelled as
an abstract digest function, so digest injectivity on the mutated body is a
hypothesis) is rejected, and any same-length mutation of the header itself is
rejected. -/
theorem verifySignature_accepts_valid_rejects_mutations
    (hmacSha256Hex : List Nat → List Nat) (body mutatedBody mutatedSig : List Nat)
    (hlen : (hmacSha256Hex mutatedBody).length = (hmacSha256Hex body).length)
    (hmac_ne : hmacSha256Hex mutatedBody ≠ hmacSha256Hex body)
    (hsig_len : mutatedSig.length = (sha256Tag ++ hmacSha256Hex body).length)
    (hsig_ne : mutatedSig ≠ sha256Tag ++ hmacSha256Hex body) :
    verifySignature hmacSha256Hex body (some (sha256Tag ++ hmacSha256Hex body)) =
      Except.ok true ∧
    verifySignature hmacSha256Hex mutatedBody (some (sha256Tag ++ hmacSha256Hex body)) =
      Except.ok false ∧
    verifySignature hmacSha256Hex body (some mutatedSig) = Except.ok false := by
  refine ⟨?_, ?_, ?_⟩
  · simp [verifySignature, timingSafeEqual]
  · have hne : sha256Tag ++ hmacSha256Hex mutatedBody ≠ sha256Tag ++ hmacSha256Hex body := by
      intro h
      exact hmac_ne (List.append_cancel_left h)
    simp [verifySignature, timingSafeEqual, List.length_append, hlen, hne]
  · have hne : sha256Tag ++ hmacSha256Hex body ≠ mutatedSig := Ne.symm hsig_ne
    simp [verifySignature, timingSafeEqual, hsig_len.symm, hne]

/-- Closed instance of `verifySignature_accepts_valid_rejects_mutations`. -/
theorem verifySignature_accepts_valid_rejects_mutations_witness :
    (toyHmac [1, 2]).length = (toyHmac [1]).length ∧
    toyHmac [1, 2] ≠ toyHmac [1] ∧
    (sha256Tag ++ [1, 98]).length = (sha256Tag ++ toyHmac [1]).length ∧
    sha256Tag ++ [1, 98] ≠ sha256Tag ++ toyHmac [1] ∧
    (verifySignature toyHmac [1] (some (sha256Tag ++ toyHmac [1])) = Except.ok true ∧
     verifySignature toyHmac [1, 2] (some (sha256Tag ++ toyHmac [1])) = Except.ok false ∧
     verifySignature toyHmac [1] (some (sha256Tag ++ [1, 98])) = Except.ok false) :=
  ⟨by decide, by decide, by decide, by decide,
   verifySignature_accepts_valid_rejects_mutations toyHmac [1] [1, 2] (sha256Tag ++ [1, 98])
     (by decide) (by decide) (by decide) (by decide)⟩

/-- C2: contrary to the claim, `verifySignature` throws on a missing header:
`crypto.timingSafeEqual` is handed buffers of different byte lengths (the
expected `sha256=` ++ hex string versus the empty buffer) and raises
`ERR_CRYPTO_TIMING_SAFE_EQUAL_LENGTH` instead of returning false. -/
theorem verifySignature_missing_header_throws (hmacSha256Hex : List Nat → List Nat)
    (payload : List Nat) :
    verifySignature hmacSha256Hex payload none =
      Except.error
        ("ERR_CRYPTO_TIMING_SAFE_EQUAL_LENGTH: Input buffers must have the same byte length") := by
  have h7 : sha256Tag.length = 7 := by decide
  have hne : ¬((sha256Tag ++ hmacSha256Hex payload).length = ([] : List Nat).length) := by
    simp [List.length_append, h7]
  show timingSafeEqual (sha256Tag ++ hmacSha256Hex payload) [] =
    Except.error
      ("ERR_CRYPTO_TIMING_SAFE_EQUAL_LENGTH: Input buffers must have the same byte length")
  simp only [timingSafeEqual]
  rw [if_neg hne]

/-! ### Sample data for closed instantiations -/

/-- A reviewable python file with a non-empty patch. -/
def appPy : ChangedFile :=
  { filename := "app.py", status := "modified", additions := some 10, deletions := some 2,
    patch := some "@@ -1 +1 @@" }

/-- An image file, carrying a patch. -/
def logoPng : ChangedFile :=
  { filename := "logo.png", status := "modified", additions := some 0, deletions := some 0,
    patch := some "@@ bin @@" }

/-- A file with removed status. -/
def removedFile : ChangedFile :=
  { filename := "old.js", status := "removed", additions := some 3, deletions := some 4,
    patch := none }

/-- A modified file whose diff carries no patch text. -/
def noPatchFile : ChangedFile :=
  { filename := "big.js", status := "modified", additions := some 1, deletions := some 1,
    patch := none }

/-- An environment in which the review service and the inline posting fail
while token mint, diff fetch and summary posting succeed. -/
def sampleFailEnv : Env :=
  { hmacSha256Hex := toyHmac
    getInstallationToken := Except.ok ("tok")
    listFiles := Except.ok [appPy, logoPng]
    openaiCreate := fun _ _ => Except.error ("review service down")
    jsonParse := fun _ => Except.error ("unparsable")
    pullsGet := Except.ok ("sha1")
    createReviewComment := fun _ _ _ => Except.error ("inline post failed")
    createComment := fun _ => Except.ok () }

/-- Like `sampleFailEnv` but the completion call answers with text that does
not parse. -/
def sampleMalformedEnv : Env :=
  { sampleFailEnv with openaiCreate := fun _ _ => Except.ok ("not json at all") }

/-- Like `sampleMalformedEnv` but the text parses into an object with no
comments array. -/
def sampleNoCommentsEnv : Env :=
  { sampleMalformedEnv with jsonParse := fun _ => Except.ok { comments := none } }

/-- Environment in which signatures verify but the token exchange fails. -/
def authFailEnv : Env :=
  { sampleFailEnv with getInstallationToken := Except.error ("assertion rejected") }

/-! ### Review orchestration -/

/-- C5: the per-file loop never sends a removed file or a file without a patch
to the review service, never sends an image file such as logo.png regardless
of its patch, and does send app.py when it carries a non-empty patch and a
non-removed status. -/
theorem reviewStep_skip_rules (env : Env) (fRem fNoPatch fImg fPy : ChangedFile) (p : String)
    (h1 : fRem.status = "removed")
    (h2 : fNoPatch.patch = none)
    (h3 : fImg.filename = "logo.png")
    (h4 : fPy.filename = "app.py") (h5 : fPy.status ≠ "removed")
    (h6 : fPy.patch = some p) (h7 : p ≠ "") :
    reviewStep env fRem = [] ∧
    reviewStep env fNoPatch = [] ∧
    reviewStep env fImg = [] ∧
    Effect.startedReview ("app.py") ∈ reviewStep env fPy := by
  have hcodePy : isCodeFile ("app.py") = true := by decide
  have hcodeImg : isCodeFile ("logo.png") = false := by decide
  refine ⟨?_, ?_, ?_, ?_⟩
  · simp [reviewStep, h1]
  · simp [reviewStep, jsTruthy, h2]
  · cases hc : (fImg.status == "removed" || !(jsTruthy fImg.patch)) <;>
      simp [reviewStep, hc, h3, hcodeImg]
  · have hb5 : (fPy.status == "removed") = false := by simp [h5]
    have hb6 : jsTruthy fPy.patch = true := by simp [jsTruthy, h6, h7]
    simp [reviewStep, hb5, hb6, h4, hcodePy, reviewFileWithAI]

/-- Closed instance of `reviewStep_skip_rules`. -/
theorem reviewStep_skip_rules_witness :
    removedFile.status = "removed" ∧ noPatchFile.patch = none ∧
    logoPng.filename = "logo.png" ∧ appPy.filename = "app.py" ∧
    appPy.status ≠ "removed" ∧ appPy.patch = some ("@@ -1 +1 @@") ∧
    ("@@ -1 +1 @@" : String) ≠ "" ∧
    (reviewStep sampleFailEnv removedFile = [] ∧
     reviewStep sampleFailEnv noPatchFile = [] ∧
     reviewStep sampleFailEnv logoPng = [] ∧
     Effect.startedReview ("app.py") ∈ reviewStep sampleFailEnv appPy) :=
  ⟨rfl, rfl, rfl, rfl, by decide, rfl, by decide,
   reviewStep_skip_rules sampleFailEnv removedFile noPatchFile logoPng appPy ("@@ -1 +1 @@")
     rfl rfl rfl rfl (by decide) rfl (by decide)⟩

/-- C6: when the completion call fails or its output does not parse as
structured data, `getAIReview` degrades to the empty findings object, and the
per-file review posts no inline comment and propagates no error. -/
theorem getAIReview_malformed_degrades (env : Env) (file : ChangedFile) (content e : String)
    (hcase : env.openaiCreate file.filename file.patch = Except.error e ∨
      (env.openaiCreate file.filename file.patch = Except.ok content ∧
       env.jsonParse content = Except.error e)) :
    getAIReview (env.openaiCreate file.filename file.patch) env.jsonParse =
      { comments := some [] } ∧
    reviewFileWithAI env file = [Effect.startedReview file.filename] := by
  have hrev : getAIReview (env.openaiCreate file.filename file.patch) env.jsonParse =
      { comments := some [] } := by
    rcases hcase with h | ⟨hl, hr⟩
    · simp [getAIReview, h]
    · simp [getAIReview, hl, hr]
  exact ⟨hrev, by simp [reviewFileWithAI, hrev]⟩

/-- Closed instance of `getAIReview_malformed_degrades`. -/
theorem getAIReview_malformed_degrades_witness :
    (sampleMalformedEnv.openaiCreate appPy.filename appPy.patch = Except.error ("unparsable") ∨
     (sampleMalformedEnv.openaiCreate appPy.filename appPy.patch = Except.ok ("not json at all") ∧
      sampleMalformedEnv.jsonParse ("not json at all") = Except.error ("unparsable"))) ∧
    (getAIReview (sampleMalformedEnv.openaiCreate appPy.filename appPy.patch)
        sampleMalformedEnv.jsonParse = { comments := some [] } ∧
     reviewFileWithAI sampleMalformedEnv appPy = [Effect.startedReview appPy.filename]) :=
  ⟨Or.inr ⟨rfl, rfl⟩,
   getAIReview_malformed_degrades sampleMalformedEnv appPy ("not json at all") ("unparsable")
     (Or.inr ⟨rfl, rfl⟩)⟩

/-- C10: a response that parses as structured data but has no comments array,
or an empty one, completes the per-file review with zero inline comments and
no error. -/
theorem reviewFileWithAI_absent_or_empty_comments (env : Env) (file : ChangedFile)
    (content : String) (review : AIReview)
    (hresp : env.openaiCreate file.filename file.patch = Except.ok content)
    (hparse : env.jsonParse content = Except.ok review)
    (hcomments : review.comments = none ∨ review.comments = some []) :
    reviewFileWithAI env file = [Effect.startedReview file.filename] := by
  rcases hcomments with h | h <;>
    simp [reviewFileWithAI, getAIReview, hresp, hparse, h]

/-- Closed instance of `reviewFileWithAI_absent_or_empty_comments`. -/
theorem reviewFileWithAI_absent_or_empty_comments_witness :
    sampleNoCommentsEnv.openaiCreate appPy.filename appPy.patch =
      Except.ok ("not json at all") ∧
    sampleNoCommentsEnv.jsonParse ("not json at all") = Except.ok { comments := none } ∧
    ((AIReview.mk none).comments = none ∨ (AIReview.mk none).comments = some []) ∧
    reviewFileWithAI sampleNoCommentsEnv appPy = [Effect.startedReview appPy.filename] :=
  ⟨rfl, rfl, Or.inl rfl,
   reviewFileWithAI_absent_or_empty_comments sampleNoCommentsEnv appPy ("not json at all")
     (AIReview.mk none) rfl rfl (Or.inl rfl)⟩

/-- C4: with the token mint, diff fetch and summary post succeeding, the
pipeline completes and posts the summary no matter how the review service, the
parser or the inline posting behave (they are unconstrained here); every
eligible file is still processed; and a failing inline post collapses to a
single logged effect instead of an error. -/
theorem pipeline_failure_isolation (env : Env) (files : List ChangedFile) (tok sha e : String)
    (g f : ChangedFile) (c : ReviewComment)
    (htok : env.getInstallationToken = Except.ok tok)
    (hfiles : env.listFiles = Except.ok files)
    (hsummary : ∀ b, env.createComment b = Except.ok ())
    (hmem : g ∈ files) (hgst : g.status ≠ "removed") (hgpatch : jsTruthy g.patch = true)
    (hgcode : isCodeFile g.filename = true)
    (hsha : env.pullsGet = Except.ok sha)
    (hpostfail : env.createReviewComment sha f.filename c = Except.error e) :
    (handlePullRequest env).2 = none ∧
    Effect.postedSummary (formatComment (countLines files)) ∈ (handlePullRequest env).1 ∧
    Effect.startedReview g.filename ∈ (handlePullRequest env).1 ∧
    postInlineComment env f c = [Effect.loggedInlineError e] := by
  have hrun : handlePullRequest env =
      (Effect.fetchedDiff :: (files.flatMap (reviewStep env) ++
        [Effect.postedSummary (formatComment (countLines files))]), none) := by
    simp [handlePullRequest, htok, hfiles, hsummary]
  have hstep : Effect.startedReview g.filename ∈ reviewStep env g := by
    have hb : (g.status == "removed") = false := by simp [hgst]
    simp [reviewStep, hb, hgpatch, hgcode, reviewFileWithAI]
  refine ⟨?_, ?_, ?_, ?_⟩
  · rw [hrun]
  · rw [hrun]
    exact List.mem_cons_of_mem _ (List.mem_append_right _ (List.mem_singleton.mpr rfl))
  · rw [hrun]
    exact List.mem_cons_of_mem _ (List.mem_append_left _ (List.mem_flatMap.mpr ⟨g, hmem, hstep⟩))
  · simp [postInlineComment, hsha, hpostfail]

/-- Closed instance of `pipeline_failure_isolation`: the review service and
every inline post fail, yet the summary is posted and both eligibility and
logging behave as stated. -/
theorem pipeline_failure_isolation_witness :
    sampleFailEnv.getInstallationToken = Except.ok ("tok") ∧
    sampleFailEnv.listFiles = Except.ok [appPy, logoPng] ∧
    (∀ b, sampleFailEnv.createComment b = Except.ok ()) ∧
    appPy ∈ [appPy, logoPng] ∧ appPy.status ≠ "removed" ∧ jsTruthy appPy.patch = true ∧
    isCodeFile appPy.filename = true ∧ sampleFailEnv.pullsGet = Except.ok ("sha1") ∧
    sampleFailEnv.createReviewComment ("sha1") appPy.filename
      (ReviewComment.mk 1 ("m") ("warning")) = Except.error ("inline post failed") ∧
    ((handlePullRequest sampleFailEnv).2 = none ∧
     Effect.postedSummary (formatComment (countLines [appPy, logoPng])) ∈
       (handlePullRequest sampleFailEnv).1 ∧
     Effect.startedReview appPy.filename ∈ (handlePullRequest sampleFailEnv).1 ∧
     postInlineComment sampleFailEnv appPy (ReviewComment.mk 1 ("m") ("warning")) =
       [Effect.loggedInlineError ("inline post failed")]) :=
  ⟨rfl, rfl, fun _ => rfl, by decide, by decide, by decide, by decide, rfl, rfl,
   pipeline_failure_isolation sampleFailEnv [appPy, logoPng] ("tok") ("sha1")
     ("inline post failed") appPy appPy (ReviewComment.mk 1 ("m") ("warning")) rfl rfl
     (fun _ => rfl) (by decide) (by decide) (by decide) (by decide) rfl rfl⟩

/-- C7 counterexample: with a valid signature and a failing token exchange the
dispatcher answers 500, not the 401 the claim requires; the token-exchange
failure falls into the generic pipeline error path. -/
theorem token_exchange_failure_answers_500_not_401 :
    verifySignature authFailEnv.hmacSha256Hex [7] (some (sha256Tag ++ toyHmac [7])) =
      Except.ok true ∧
    authFailEnv.getInstallationToken = Except.error ("assertion rejected") ∧
    webhookHandler authFailEnv [7] (some (sha256Tag ++ toyHmac [7]))
      { action := "opened", pull_request := some 42, installationId := 7 } =
      Except.ok (500, []) ∧
    webhookHandler authFailEnv [7] (some (sha256Tag ++ toyHmac [7]))
      { action := "opened", pull_request := some 42, installationId := 7 } ≠
      Except.ok (401, []) :=
  ⟨by decide, rfl, by decide, by decide⟩

/-- C7 (amended): a bad signature yields the 401 response with no side effect;
a failed token exchange also aborts the pipeline before any side effect (no
diff fetch, no comment posted) but is mapped by the dispatcher's generic error
handling to the 500 response rather than a 401. -/
theorem auth_failures_abort_before_side_effects (env : Env)
    (bodyA bodyB : List Nat) (sigA sigB : Option (List Nat)) (payloadA payloadB : Payload)
    (n : Nat) (e : String)
    (hbad : verifySignature env.hmacSha256Hex bodyA sigA = Except.ok false)
    (hgood : verifySignature env.hmacSha256Hex bodyB sigB = Except.ok true)
    (htok : env.getInstallationToken = Except.error e)
    (hpr : payloadB.pull_request = some n)
    (hact : payloadB.action = "opened" ∨ payloadB.action = "synchronize") :
    webhookHandler env bodyA sigA payloadA = Except.ok (401, []) ∧
    webhookHandler env bodyB sigB payloadB = Except.ok (500, []) := by
  constructor
  · simp [webhookHandler, hbad]
  · have hhp : handlePullRequest env = ([], some e) := by simp [handlePullRequest, htok]
    have hfilter : (payloadB.pull_request.isNone ||
        (payloadB.action != "opened" && payloadB.action != "synchronize")) = false := by
      rcases hact with h | h <;> rw [hpr, h] <;>
        simp only [Option.isNone_some, Bool.false_or] <;> decide
    simp [webhookHandler, hgood, hfilter, hhp]

/-- Closed instance of `auth_failures_abort_before_side_effects`. -/
theorem auth_failures_abort_before_side_effects_witness :
    verifySignature authFailEnv.hmacSha256Hex [1] (some (sha256Tag ++ [2, 97])) =
      Except.ok false ∧
    verifySignature authFailEnv.hmacSha256Hex [7] (some (sha256Tag ++ toyHmac [7])) =
      Except.ok true ∧
    authFailEnv.getInstallationToken = Except.error ("assertion rejected") ∧
    (Payload.mk ("opened") (some 42) 7).pull_request = some 42 ∧
    ((Payload.mk ("opened") (some 42) 7).action = "opened" ∨
     (Payload.mk ("opened") (some 42) 7).action = "synchronize") ∧
    (webhookHandler authFailEnv [1] (some (sha256Tag ++ [2, 97]))
        (Payload.mk ("opened") (some 42) 7) = Except.ok (401, []) ∧
     webhookHandler authFailEnv [7] (some (sha256Tag ++ toyHmac [7]))
        (Payload.mk ("opened") (some 42) 7) = Except.ok (500, [])) :=
  ⟨by decide, by decide, rfl, rfl, Or.inl rfl,
   auth_failures_abort_before_side_effects authFailEnv [1] [7]
     (some (sha256Tag ++ [2, 97])) (some (sha256Tag ++ toyHmac [7]))
     (Payload.mk ("opened") (some 42) 7) (Payload.mk ("opened") (some 42) 7) 42
     ("assertion rejected") (by decide) (by decide) rfl rfl (Or.inl rfl)⟩
